import Mathlib

set_option maxHeartbeats 1000000

/-!
Shallow embedding of the webp encoder wrapper (`src/webp/src/lib.rs`).

The wrapper drives the external libwebp codec through a fixed sequence of
foreign calls.  The codec itself is outside this repository, so it is
modelled as an abstract oracle (`Codec` below) supplying the success flag
and the resulting state of each foreign primitive.  The orchestrator
`encode` is translated line by line from the Rust source and additionally
records a trace of the foreign calls it performs (`Event`), which lets us
reason about cleanup ordering and about which primitives run on which path.

Machine integers (`i32` / `c_int`) are modelled as `Int` together with the
explicit 32-bit two's-complement reduction `wrap32`, which is the semantics
of Rust `as` casts and of release-mode wrapping arithmetic.  Raw byte
pointers are modelled as `Option` values (`none` = null) or as the byte
lists they point to.  The `f32` fields `quality` and `target_PSNR` are
modelled as `Rat`: the wrapper performs no floating-point arithmetic on
them, it only stores and forwards them.
-/

/-- 32-bit two's-complement reduction: the value of an `i32` holding the
low 32 bits of `x` (Rust release-mode wrapping / `as` cast semantics). -/
def wrap32 (x : Int) : Int :=
  let r := x % 4294967296
  if r < 2147483648 then r else r - 4294967296

/-- The Rust cast `width as c_int` applied to a `u32` value modelled as `Nat`. -/
def u32ToI32 (n : Nat) : Int := wrap32 (n : Int)

/-- `WebPConfig`, fields in the order of the literal built by `config`
(src/webp/src/lib.rs lines 26-56). -/
structure WebPConfig where
  lossless : Int
  quality : Rat
  method : Int
  image_hint : Int
  target_size : Int
  target_PSNR : Rat
  segments : Int
  sns_strength : Int
  filter_strength : Int
  filter_sharpness : Int
  filter_type : Int
  autofilter : Int
  alpha_compression : Int
  alpha_filtering : Int
  alpha_quality : Int
  pass : Int
  show_compressed : Int
  preprocessing : Int
  partitions : Int
  partition_limit : Int
  emulate_jpeg_size : Int
  thread_level : Int
  low_memory : Int
  near_lossless : Int
  exact : Int
  use_delta_palette : Int
  use_sharp_yuv : Int
  qmin : Int
  qmax : Int
  deriving DecidableEq

/-- `config(lossless, quality, method, multi_threading)`
(src/webp/src/lib.rs lines 25-57).  `image_hint` is
`WEBP_HINT_DEFAULT` (numeric value 0). -/
def config (lossless : Bool) (quality : Rat) (method : Int)
    (multi_threading : Bool) : WebPConfig :=
  { lossless := if lossless then 1 else 0
    quality := quality
    method := method
    image_hint := 0
    target_size := 0
    target_PSNR := 0
    segments := 4
    sns_strength := 0
    filter_strength := 0
    filter_sharpness := 0
    filter_type := 0
    autofilter := 0
    alpha_compression := 1
    alpha_filtering := 1
    alpha_quality := 100
    pass := 5
    show_compressed := 1
    preprocessing := 0
    partitions := 0
    partition_limit := 0
    emulate_jpeg_size := 0
    thread_level := if multi_threading then 1 else 0
    low_memory := 0
    near_lossless := 100
    exact := 0
    use_delta_palette := 0
    use_sharp_yuv := 0
    qmin := 0
    qmax := 100 }

/-- `WebPPicture`, fields in the order of the literal built by
`empty_webp_picture` (src/webp/src/lib.rs lines 60-109).  Raw pointers are
`Option Nat` (`none` = null); the writer callback and progress hook are
`Option Unit` (`none` = the Rust `None`); enum fields (`colorspace`,
`error_code`) are their numeric values. -/
structure WebPPicture where
  use_argb : Int
  colorspace : Int
  width : Int
  height : Int
  y : Option Nat
  u : Option Nat
  v : Option Nat
  y_stride : Int
  uv_stride : Int
  a : Option Nat
  a_stride : Int
  pad1 : List Int
  argb : Option Nat
  argb_stride : Int
  pad2 : List Int
  writer : Option Unit
  custom_ptr : Option Unit
  extra_info_type : Int
  extra_info : Option Nat
  stats : Option Nat
  error_code : Int
  progress_hook : Option Unit
  user_data : Option Nat
  pad3 : List Int
  pad4 : Option Nat
  pad5 : Option Nat
  pad6 : List Int
  memory_ : Option Nat
  memory_argb_ : Option Nat
  pad7 : List (Option Nat)
  deriving DecidableEq

/-- `empty_webp_picture()` (src/webp/src/lib.rs lines 60-109).
`colorspace` is `WEBP_YUV420` (numeric value 0) and `error_code` is
`VP8_ENC_OK` (numeric value 0); `use_argb` is set to 1. -/
def empty_webp_picture : WebPPicture :=
  { use_argb := 1
    colorspace := 0
    width := 0
    height := 0
    y := none
    u := none
    v := none
    y_stride := 0
    uv_stride := 0
    a := none
    a_stride := 0
    pad1 := [0, 0]
    argb := none
    argb_stride := 0
    pad2 := [0, 0, 0]
    writer := none
    custom_ptr := none
    extra_info_type := 0
    extra_info := none
    stats := none
    error_code := 0
    progress_hook := none
    user_data := none
    pad3 := [0, 0, 0]
    pad4 := none
    pad5 := none
    pad6 := [0, 0, 0, 0, 0, 0, 0, 0]
    memory_ := none
    memory_argb_ := none
    pad7 := [none, none] }

/-- A `WebPPicture` that is zero/null in every field, the state the spec
claims `empty_webp_picture` produces.  This definition follows the claim's
words (zero/null-initialized in every field) and exists only to be compared
with `empty_webp_picture`, which is translated from the source. -/
def zeroWebPPicture : WebPPicture :=
  { use_argb := 0
    colorspace := 0
    width := 0
    height := 0
    y := none
    u := none
    v := none
    y_stride := 0
    uv_stride := 0
    a := none
    a_stride := 0
    pad1 := [0, 0]
    argb := none
    argb_stride := 0
    pad2 := [0, 0, 0]
    writer := none
    custom_ptr := none
    extra_info_type := 0
    extra_info := none
    stats := none
    error_code := 0
    progress_hook := none
    user_data := none
    pad3 := [0, 0, 0]
    pad4 := none
    pad5 := none
    pad6 := [0, 0, 0, 0, 0, 0, 0, 0]
    memory_ := none
    memory_argb_ := none
    pad7 := [none, none] }

/-- `WebPMemoryWriter`: the in-memory output sink.  `mem` is the foreign
byte buffer (`none` = null pointer). -/
structure WebPMemoryWriter where
  mem : Option (List Nat)
  size : Nat
  max_size : Nat
  pad : List Int
  deriving DecidableEq

/-- The sink literal built at the start of `encode`
(src/webp/src/lib.rs lines 201-206): null memory pointer, zero size. -/
def initialWriter : WebPMemoryWriter :=
  { mem := none, size := 0, max_size := 0, pad := [0] }

/-- `PixelLayout` (src/webp/src/lib.rs lines 111-118).  The `RgbaImage`
carried by `Other` is modelled as its raw RGBA byte buffer. -/
inductive PixelLayout where
  | RGB
  | RGBA
  | BGR
  | BGRA
  | Other (img : List Nat)
  deriving DecidableEq

/-- The four layout-specific import primitives
(`WebPPictureImportRGB` / `RGBA` / `BGR` / `BGRA`). -/
inductive ImportPrim where
  | RGB
  | RGBA
  | BGR
  | BGRA
  deriving DecidableEq

/-- Channel count of an import primitive: 3 for RGB/BGR, 4 for RGBA/BGRA. -/
def channelsOf : ImportPrim → Int
  | ImportPrim.RGB => 3
  | ImportPrim.RGBA => 4
  | ImportPrim.BGR => 3
  | ImportPrim.BGRA => 4

/-- A foreign call performed by `encode`, recorded in order. -/
inductive Event where
  | configInitCall
  | pictureInitCall
  | writerInitCall
  | importCall (p : ImportPrim) (stride : Int)
  | encodeCall
  | pictureFree
  | writerClear
  deriving DecidableEq

/-- Number of `pictureFree` events in a trace. -/
def countFree : List Event → Nat
  | [] => 0
  | Event.pictureFree :: t => countFree t + 1
  | _ :: t => countFree t

/-- The failure cases of `encode`, one per `return Err(...)` site
(src/webp/src/lib.rs lines 218, 221, 256, 262-265).  The source reports
them as `anyhow` messages; `encodeError` carries the numeric
`error_code` read from the picture descriptor. -/
inductive EncodeFailure where
  | configInitError
  | pictureInitError
  | importError
  | encodeError (code : Int)
  deriving DecidableEq

/-- Outcome of `encode`: `ok` is the returned `WebPMemory(mem, size)`;
`panicked` is the `unreachable!()` arm of the layout match
(src/webp/src/lib.rs line 254). -/
inductive EncodeResult where
  | ok (mem : Option (List Nat)) (size : Nat)
  | err (f : EncodeFailure)
  | panicked
  deriving DecidableEq

/-- The external codec, modelled as an oracle over the foreign primitives
the wrapper consumes (spec section 6).  Each primitive's success flag and
resulting state is an arbitrary function of the arguments the wrapper
passes to it; the preset and ABI version are fixed constants in the source,
so `WebPConfigInitInternal` varies only with the quality argument. -/
structure Codec where
  configInitOk : Rat → Bool
  configInitResult : Rat → WebPConfig
  pictureInitOk : Bool
  pictureInitResult : WebPPicture → WebPPicture
  writerInitResult : WebPMemoryWriter → WebPMemoryWriter
  importOk : ImportPrim → WebPPicture → List Nat → Int → Bool
  importResult : ImportPrim → WebPPicture → List Nat → Int → WebPPicture
  encodeOk : WebPConfig → WebPPicture → Bool
  encodePic : WebPConfig → WebPPicture → WebPPicture
  encodeWriter : WebPConfig → WebPPicture → WebPMemoryWriter → WebPMemoryWriter

/-- The effective config handed to `WebPEncode`: the whole struct is
rewritten by `WebPConfigInitInternal(cfg_ptr, WEBP_PRESET_DEFAULT,
cfg.quality, ABI)` and then `lossless`, `method` and `thread_level` are
re-applied from the caller's config (src/webp/src/lib.rs lines 212-226). -/
def cfgEff (c : Codec) (cfg : WebPConfig) : WebPConfig :=
  { c.configInitResult cfg.quality with
      lossless := cfg.lossless
      method := cfg.method
      thread_level := cfg.thread_level }

/-- The picture descriptor just before the import step: the result of
`WebPPictureInitInternal` on the fresh descriptor, with `use_argb` set from
the caller's lossless flag, the geometry set from the encoder fields (via
the `as c_int` casts), and the memory-writer callback and its context
installed (src/webp/src/lib.rs lines 220-234). -/
def picReady (c : Codec) (cfg : WebPConfig) (width height : Nat) : WebPPicture :=
  { c.pictureInitResult empty_webp_picture with
      use_argb := cfg.lossless
      width := u32ToI32 width
      height := u32ToI32 height
      writer := some ()
      custom_ptr := some () }

/-- The layout match of `encode` (src/webp/src/lib.rs lines 237-255):
selects the import primitive and computes the stride from the already-cast
`c_int` width (`width * 3` or `width * 4` in wrapping `i32` arithmetic).
`none` is the wildcard `unreachable!()` arm, reached only by `Other`. -/
def layoutPrim (layout : PixelLayout) (w : Int) : Option (ImportPrim × Int) :=
  match layout with
  | PixelLayout.RGB => some (ImportPrim.RGB, wrap32 (w * 3))
  | PixelLayout.RGBA => some (ImportPrim.RGBA, wrap32 (w * 4))
  | PixelLayout.BGR => some (ImportPrim.BGR, wrap32 (w * 3))
  | PixelLayout.BGRA => some (ImportPrim.BGRA, wrap32 (w * 4))
  | PixelLayout.Other _ => none

/-- The stride the wrapper computes for a given primitive and cast width. -/
def strideOf (p : ImportPrim) (w : Int) : Int := wrap32 (w * channelsOf p)

/-- The free function `encode` (src/webp/src/lib.rs lines 199-269),
returning the result together with the trace of foreign calls performed.
Each `check_ok!` failure returns immediately with the trace so far;
`WebPPictureFree` runs right after `WebPEncode` on both of that step's
outcomes, and `WebPMemoryWriterClear` runs only on encode failure, after
the free.  The `EncodeError` code is the `error_code` field of the picture
left by `WebPEncode` (read through the still-allocated box;
`WebPPictureFree` releases only the picture's internal buffers). -/
def encodeImpl (c : Codec) (cfg : WebPConfig) (image : List Nat)
    (layout : PixelLayout) (width height : Nat) :
    EncodeResult × List Event :=
  let t0 := [Event.configInitCall]
  if c.configInitOk cfg.quality then
    let t1 := t0 ++ [Event.pictureInitCall]
    if c.pictureInitOk then
      let cfg2 := cfgEff c cfg
      let pic3 := picReady c cfg width height
      let t2 := t1 ++ [Event.writerInitCall]
      match layoutPrim layout (u32ToI32 width) with
      | none => (EncodeResult.panicked, t2)
      | some (p, stride) =>
        let t3 := t2 ++ [Event.importCall p stride]
        if c.importOk p pic3 image stride then
          let pic4 := c.importResult p pic3 image stride
          let t4 := t3 ++ [Event.encodeCall, Event.pictureFree]
          if c.encodeOk cfg2 pic4 then
            let w2 := c.encodeWriter cfg2 pic4 (c.writerInitResult initialWriter)
            (EncodeResult.ok w2.mem w2.size, t4)
          else
            (EncodeResult.err
              (EncodeFailure.encodeError ((c.encodePic cfg2 pic4).error_code)),
             t4 ++ [Event.writerClear])
        else
          (EncodeResult.err EncodeFailure.importError, t3)
    else
      (EncodeResult.err EncodeFailure.pictureInitError, t1)
  else
    (EncodeResult.err EncodeFailure.configInitError, t0)

/-- `Encoder` (src/webp/src/lib.rs lines 120-126); the borrowed image bytes
are modelled as the byte list. -/
structure Encoder where
  cfg : WebPConfig
  layout : PixelLayout
  image : List Nat
  width : Nat
  height : Nat

/-- `Encoder::from_rgb` (src/webp/src/lib.rs lines 146-154). -/
def Encoder.from_rgb (cfg : WebPConfig) (image : List Nat)
    (width height : Nat) : Encoder :=
  { cfg := cfg, image := image, width := width, height := height
    layout := PixelLayout.RGB }

/-- `Encoder::from_rgba` (src/webp/src/lib.rs lines 157-165). -/
def Encoder.from_rgba (cfg : WebPConfig) (image : List Nat)
    (width height : Nat) : Encoder :=
  { cfg := cfg, image := image, width := width, height := height
    layout := PixelLayout.RGBA }

/-- `Encoder::from_other` (src/webp/src/lib.rs lines 169-177): keeps the
original bytes and tags the layout with the pre-converted RGBA copy. -/
def Encoder.from_other (cfg : WebPConfig) (image : List Nat)
    (width height : Nat) (other : List Nat) : Encoder :=
  { cfg := cfg, image := image, width := width, height := height
    layout := PixelLayout.Other other }

/-- `Encoder::encode` (src/webp/src/lib.rs lines 180-188): when the layout
is `Other(img)` it substitutes the normalized buffer and the RGBA tag for
the original bytes, then calls the free function `encode`. -/
def Encoder.encode (c : Codec) (e : Encoder) : EncodeResult × List Event :=
  match e.layout with
  | PixelLayout.Other img => encodeImpl c e.cfg img PixelLayout.RGBA e.width e.height
  | l => encodeImpl c e.cfg e.image l e.width e.height

/-- The image bytes the encoder actually hands to the free function
(the `Other` substitution of src/webp/src/lib.rs lines 181-185). -/
def Encoder.effImage (e : Encoder) : List Nat :=
  match e.layout with
  | PixelLayout.Other img => img
  | _ => e.image

/-- The post-substitution layout (`Other` becomes `RGBA`). -/
def Encoder.effLayout (e : Encoder) : PixelLayout :=
  match e.layout with
  | PixelLayout.Other _ => PixelLayout.RGBA
  | l => l

/-- The import primitive matching the post-substitution layout. -/
def Encoder.effPrim (e : Encoder) : ImportPrim :=
  match e.layout with
  | PixelLayout.RGB => ImportPrim.RGB
  | PixelLayout.RGBA => ImportPrim.RGBA
  | PixelLayout.BGR => ImportPrim.BGR
  | PixelLayout.BGRA => ImportPrim.BGRA
  | PixelLayout.Other _ => ImportPrim.RGBA

/-- `true` exactly on the `unreachable!()` outcome. -/
def EncodeResult.isPanic : EncodeResult → Bool
  | EncodeResult.panicked => true
  | _ => false

/-- A concrete codec oracle for witnesses and counterexamples: each
primitive's success flag is the corresponding argument, the encode step
writes `code` into the picture's error field and two bytes into the sink. -/
def testCodec (cOk pOk iOk eOk : Bool) (code : Int) : Codec :=
  { configInitOk := fun _ => cOk
    configInitResult := fun q => config false q 4 false
    pictureInitOk := pOk
    pictureInitResult := fun p => p
    writerInitResult := fun w => { w with mem := none, size := 0, max_size := 0 }
    importOk := fun _ _ _ _ => iOk
    importResult := fun _ p _ _ => p
    encodeOk := fun _ _ => eOk
    encodePic := fun _ p => { p with error_code := code }
    encodeWriter := fun _ _ w => { w with mem := some [7, 7], size := 2 } }

/-- A sample caller config used by witnesses and counterexamples. -/
def cfg50 : WebPConfig := config true 50 6 true

/-- `cfg50` with every advanced-tuning field changed, agreeing with
`cfg50` only on `lossless`, `quality`, `method` and `thread_level`. -/
def cfg50Alt : WebPConfig :=
  { cfg50 with
      segments := 99
      sns_strength := 3
      alpha_quality := 1
      pass := 1
      near_lossless := 0
      qmin := 7
      qmax := 42
      image_hint := 2
      target_size := 1000 }

/-- Expected number of `WebPPictureFree` calls as a function of the outcome:
one on the paths that reach the codec-encode step, zero on the earlier
failure paths. -/
def expectedFrees : EncodeResult → Nat
  | EncodeResult.ok _ _ => 1
  | EncodeResult.err (EncodeFailure.encodeError _) => 1
  | _ => 0

theorem layoutPrim_effLayout (e : Encoder) (w : Int) :
    layoutPrim e.effLayout w = some (e.effPrim, strideOf e.effPrim w) := by
  obtain ⟨cfg, layout, image, wi, hi⟩ := e
  cases layout <;> rfl

theorem wrap32_eq_self (x : Int) (h0 : 0 ≤ x) (h1 : x < 2147483648) :
    wrap32 x = x := by
  unfold wrap32
  rw [Int.emod_eq_of_lt h0 (by omega)]
  simp [h1]

theorem strideOf_exact (p : ImportPrim) (w : Nat)
    (h : channelsOf p * (w : Int) < 2147483648) :
    strideOf p (u32ToI32 w) = channelsOf p * (w : Int) := by
  have hch : 3 ≤ channelsOf p := by cases p <;> simp [channelsOf]
  have hw0 : (0 : Int) ≤ (w : Int) := Int.natCast_nonneg w
  have hw : (w : Int) < 2147483648 := by nlinarith
  have hu : u32ToI32 w = (w : Int) := wrap32_eq_self _ hw0 hw
  unfold strideOf
  rw [hu, mul_comm]
  exact wrap32_eq_self _ (mul_nonneg (le_trans (by norm_num) hch) hw0) h

/-- Full characterization of `Encoder::encode`: the result and the foreign
call trace are determined by the four codec success flags, inspected in
protocol order, with the `Other` layout already substituted by RGBA. -/
theorem encoder_encode_char (c : Codec) (e : Encoder) :
    Encoder.encode c e =
      (if c.configInitOk e.cfg.quality then
        if c.pictureInitOk then
          if c.importOk e.effPrim (picReady c e.cfg e.width e.height) e.effImage
              (strideOf e.effPrim (u32ToI32 e.width)) then
            if c.encodeOk (cfgEff c e.cfg)
                (c.importResult e.effPrim (picReady c e.cfg e.width e.height) e.effImage
                  (strideOf e.effPrim (u32ToI32 e.width))) then
              (EncodeResult.ok
                  (c.encodeWriter (cfgEff c e.cfg)
                    (c.importResult e.effPrim (picReady c e.cfg e.width e.height) e.effImage
                      (strideOf e.effPrim (u32ToI32 e.width)))
                    (c.writerInitResult initialWriter)).mem
                  (c.encodeWriter (cfgEff c e.cfg)
                    (c.importResult e.effPrim (picReady c e.cfg e.width e.height) e.effImage
                      (strideOf e.effPrim (u32ToI32 e.width)))
                    (c.writerInitResult initialWriter)).size,
               [Event.configInitCall, Event.pictureInitCall, Event.writerInitCall,
                Event.importCall e.effPrim (strideOf e.effPrim (u32ToI32 e.width)),
                Event.encodeCall, Event.pictureFree])
            else
              (EncodeResult.err (EncodeFailure.encodeError
                  ((c.encodePic (cfgEff c e.cfg)
                    (c.importResult e.effPrim (picReady c e.cfg e.width e.height) e.effImage
                      (strideOf e.effPrim (u32ToI32 e.width)))).error_code)),
               [Event.configInitCall, Event.pictureInitCall, Event.writerInitCall,
                Event.importCall e.effPrim (strideOf e.effPrim (u32ToI32 e.width)),
                Event.encodeCall, Event.pictureFree, Event.writerClear])
          else
            (EncodeResult.err EncodeFailure.importError,
             [Event.configInitCall, Event.pictureInitCall, Event.writerInitCall,
              Event.importCall e.effPrim (strideOf e.effPrim (u32ToI32 e.width))])
        else
          (EncodeResult.err EncodeFailure.pictureInitError,
           [Event.configInitCall, Event.pictureInitCall])
      else
        (EncodeResult.err EncodeFailure.configInitError, [Event.configInitCall])) := by
  obtain ⟨cfg, layout, image, w, h⟩ := e
  cases layout <;> rfl

/-- C6: for every combination of the four inputs, `config` is a pure total
function whose result carries exactly the caller's lossless flag, quality,
method and thread level, plus the fixed defaults segments=4,
alpha_quality=100, pass=5, near_lossless=100, qmin=0, qmax=100; the quality
value is stored unchanged for every input, in or out of the 0-100 range. -/
theorem c6_config_fields (lossless : Bool) (quality : Rat) (method : Int)
    (multi_threading : Bool) :
    (config lossless quality method multi_threading).lossless
        = (if lossless then 1 else 0) ∧
      (config lossless quality method multi_threading).quality = quality ∧
      (config lossless quality method multi_threading).method = method ∧
      (config lossless quality method multi_threading).thread_level
        = (if multi_threading then 1 else 0) ∧
      (config lossless quality method multi_threading).segments = 4 ∧
      (config lossless quality method multi_threading).alpha_quality = 100 ∧
      (config lossless quality method multi_threading).pass = 5 ∧
      (config lossless quality method multi_threading).near_lossless = 100 ∧
      (config lossless quality method multi_threading).qmin = 0 ∧
      (config lossless quality method multi_threading).qmax = 100 :=
  ⟨rfl, rfl, rfl, rfl, rfl, rfl, rfl, rfl, rfl, rfl⟩

/-- C4: encoding an encoder whose layout is `Other(img)` gives exactly the
same result (output and trace, hence also every failure) as encoding the
encoder built by `from_rgba` from `img`'s raw RGBA bytes with the same
config, width and height, for every codec oracle. -/
theorem c4_other_matches_rgba (c : Codec) (cfg : WebPConfig)
    (orig img : List Nat) (width height : Nat) :
    Encoder.encode c (Encoder.from_other cfg orig width height img) =
      Encoder.encode c (Encoder.from_rgba cfg img width height) := rfl

/-- C5: `Encoder::encode` always returns either an output buffer or exactly
one failure from the closed set config-init / picture-init / import /
encode(code); the result and the foreign-call trace are fully determined by
the codec flags inspected in protocol order, and once a step fails no later
foreign call appears in the trace. -/
theorem c5_outcome_protocol (c : Codec) (e : Encoder) :
    Encoder.encode c e =
      (if c.configInitOk e.cfg.quality then
        if c.pictureInitOk then
          if c.importOk e.effPrim (picReady c e.cfg e.width e.height) e.effImage
              (strideOf e.effPrim (u32ToI32 e.width)) then
            if c.encodeOk (cfgEff c e.cfg)
                (c.importResult e.effPrim (picReady c e.cfg e.width e.height) e.effImage
                  (strideOf e.effPrim (u32ToI32 e.width))) then
              (EncodeResult.ok
                  (c.encodeWriter (cfgEff c e.cfg)
                    (c.importResult e.effPrim (picReady c e.cfg e.width e.height) e.effImage
                      (strideOf e.effPrim (u32ToI32 e.width)))
                    (c.writerInitResult initialWriter)).mem
                  (c.encodeWriter (cfgEff c e.cfg)
                    (c.importResult e.effPrim (picReady c e.cfg e.width e.height) e.effImage
                      (strideOf e.effPrim (u32ToI32 e.width)))
                    (c.writerInitResult initialWriter)).size,
               [Event.configInitCall, Event.pictureInitCall, Event.writerInitCall,
                Event.importCall e.effPrim (strideOf e.effPrim (u32ToI32 e.width)),
                Event.encodeCall, Event.pictureFree])
            else
              (EncodeResult.err (EncodeFailure.encodeError
                  ((c.encodePic (cfgEff c e.cfg)
                    (c.importResult e.effPrim (picReady c e.cfg e.width e.height) e.effImage
                      (strideOf e.effPrim (u32ToI32 e.width)))).error_code)),
               [Event.configInitCall, Event.pictureInitCall, Event.writerInitCall,
                Event.importCall e.effPrim (strideOf e.effPrim (u32ToI32 e.width)),
                Event.encodeCall, Event.pictureFree, Event.writerClear])
          else
            (EncodeResult.err EncodeFailure.importError,
             [Event.configInitCall, Event.pictureInitCall, Event.writerInitCall,
              Event.importCall e.effPrim (strideOf e.effPrim (u32ToI32 e.width))])
        else
          (EncodeResult.err EncodeFailure.pictureInitError,
           [Event.configInitCall, Event.pictureInitCall])
      else
        (EncodeResult.err EncodeFailure.configInitError, [Event.configInitCall])) :=
  encoder_encode_char c e

/-- C9: the `unreachable!()` arm of the layout match inside the internal
encode function is dead for every call coming from `Encoder::encode`: the
`Other` layout is substituted by RGBA before the handoff, so the outcome is
never the panic marker. -/
theorem c9_layout_match_never_panics (c : Codec) (e : Encoder) :
    ((Encoder.encode c e).1).isPanic = false := by
  rw [encoder_encode_char]
  cases hc : c.configInitOk e.cfg.quality <;>
    cases hp : c.pictureInitOk <;>
      cases hi : c.importOk e.effPrim (picReady c e.cfg e.width e.height) e.effImage
          (strideOf e.effPrim (u32ToI32 e.width)) <;>
        cases he : c.encodeOk (cfgEff c e.cfg)
            (c.importResult e.effPrim (picReady c e.cfg e.width e.height) e.effImage
              (strideOf e.effPrim (u32ToI32 e.width))) <;>
          simp [hc, hp, hi, he, EncodeResult.isPanic]

/-- C1 counterexample: with a codec whose import primitive fails (config
and picture init succeeding), `encode` exits through the import-failure
path without a single `WebPPictureFree` call, so the picture descriptor is
not freed exactly once on every exit path. -/
theorem c1_counterexample :
    (encodeImpl (testCodec true true false true 0) cfg50 [0, 0, 0]
          PixelLayout.RGB 1 1).1 = EncodeResult.err EncodeFailure.importError ∧
      countFree (encodeImpl (testCodec true true false true 0) cfg50 [0, 0, 0]
          PixelLayout.RGB 1 1).2 = 0 := by decide

/-- C1 amended: `WebPPictureFree` is invoked exactly once on the paths that
reach the codec-encode step (success and `EncodeError`), and not at all on
the `ConfigInitError`, `PictureInitError` and `ImportError` exits. -/
theorem c1_picture_free_count (c : Codec) (e : Encoder) :
    countFree (Encoder.encode c e).2 = expectedFrees (Encoder.encode c e).1 := by
  rw [encoder_encode_char]
  cases hc : c.configInitOk e.cfg.quality <;>
    cases hp : c.pictureInitOk <;>
      cases hi : c.importOk e.effPrim (picReady c e.cfg e.width e.height) e.effImage
          (strideOf e.effPrim (u32ToI32 e.width)) <;>
        cases he : c.encodeOk (cfgEff c e.cfg)
            (c.importResult e.effPrim (picReady c e.cfg e.width e.height) e.effImage
              (strideOf e.effPrim (u32ToI32 e.width))) <;>
          simp [hc, hp, hi, he, countFree, expectedFrees]

/-- C3: once the import step has succeeded, the codec-encode step runs and
the picture descriptor is freed immediately after it on both outcomes; on
failure the accumulated sink memory is released strictly after that free
(`pictureFree` precedes `writerClear` in the trace) and the returned
`EncodeError` carries the numeric `error_code` field of the picture
descriptor left by the codec's encode primitive; on success no
`writerClear` occurs and the sink memory/size pair is transferred into the
returned output buffer. -/
theorem c3_encode_step_protocol (c : Codec) (cfg : WebPConfig)
    (image : List Nat) (layout : PixelLayout) (width height : Nat)
    (p : ImportPrim) (st : Int)
    (hc : c.configInitOk cfg.quality = true)
    (hp : c.pictureInitOk = true)
    (hl : layoutPrim layout (u32ToI32 width) = some (p, st))
    (hi : c.importOk p (picReady c cfg width height) image st = true) :
    (c.encodeOk (cfgEff c cfg)
        (c.importResult p (picReady c cfg width height) image st) = false →
      encodeImpl c cfg image layout width height =
        (EncodeResult.err (EncodeFailure.encodeError
            ((c.encodePic (cfgEff c cfg)
              (c.importResult p (picReady c cfg width height) image st)).error_code)),
         [Event.configInitCall, Event.pictureInitCall, Event.writerInitCall,
          Event.importCall p st, Event.encodeCall, Event.pictureFree,
          Event.writerClear])) ∧
    (c.encodeOk (cfgEff c cfg)
        (c.importResult p (picReady c cfg width height) image st) = true →
      encodeImpl c cfg image layout width height =
        (EncodeResult.ok
            (c.encodeWriter (cfgEff c cfg)
              (c.importResult p (picReady c cfg width height) image st)
              (c.writerInitResult initialWriter)).mem
            (c.encodeWriter (cfgEff c cfg)
              (c.importResult p (picReady c cfg width height) image st)
              (c.writerInitResult initialWriter)).size,
         [Event.configInitCall, Event.pictureInitCall, Event.writerInitCall,
          Event.importCall p st, Event.encodeCall, Event.pictureFree])) := by
  constructor <;> intro he <;> simp [encodeImpl, hc, hp, hl, hi, he]

/-- C3 witness: a concrete run in which the codec-encode step fails with
code 5: the picture is freed, then the sink is cleared, and the failure
carries code 5. -/
theorem c3_witness :
    encodeImpl (testCodec true true true false 5) cfg50 [] PixelLayout.RGB 1 1 =
      (EncodeResult.err (EncodeFailure.encodeError 5),
       [Event.configInitCall, Event.pictureInitCall, Event.writerInitCall,
        Event.importCall ImportPrim.RGB 3, Event.encodeCall, Event.pictureFree,
        Event.writerClear]) := by
  have h := c3_encode_step_protocol (testCodec true true true false 5) cfg50 []
    PixelLayout.RGB 1 1 ImportPrim.RGB 3 (by decide) (by decide) (by decide) (by decide)
  exact (h.1 (by decide)).trans (by decide)

/-- C10: two caller configs agreeing on `lossless`, `quality`, `method` and
`thread_level` but differing arbitrarily elsewhere produce identical encode
results and traces: `WebPConfigInitInternal` rewrites the whole config from
the default preset with the given quality, and only those three fields are
re-applied afterwards, so no other field built by `config` can influence
the run. -/
theorem c10_config_independence (c : Codec) (cfg1 cfg2 : WebPConfig)
    (image : List Nat) (layout : PixelLayout) (width height : Nat)
    (hq : cfg1.quality = cfg2.quality)
    (hl : cfg1.lossless = cfg2.lossless)
    (hm : cfg1.method = cfg2.method)
    (ht : cfg1.thread_level = cfg2.thread_level) :
    encodeImpl c cfg1 image layout width height =
      encodeImpl c cfg2 image layout width height := by
  simp only [encodeImpl, cfgEff, picReady, hq, hl, hm, ht]

/-- C10 witness: with a concrete codec, `cfg50` and a variant differing in
segments, sns_strength, alpha_quality, pass, near_lossless, qmin, qmax,
image_hint and target_size give identical encode runs. -/
theorem c10_witness :
    encodeImpl (testCodec true true true true 0) cfg50 [] PixelLayout.RGB 1 1 =
      encodeImpl (testCodec true true true true 0) cfg50Alt [] PixelLayout.RGB 1 1 :=
  c10_config_independence (testCodec true true true true 0) cfg50 cfg50Alt []
    PixelLayout.RGB 1 1 rfl rfl rfl rfl

/-- C8 counterexample: at width 2^30 with the RGB layout the import
primitive is called with stride -1073741824 — the 32-bit wrap of
3 x 2^30 after the `as c_int` cast — and not with the mathematical
product width x 3. -/
theorem c8_counterexample :
    (encodeImpl (testCodec true true true true 0) cfg50 []
          PixelLayout.RGB 1073741824 1).2 =
        [Event.configInitCall, Event.pictureInitCall, Event.writerInitCall,
         Event.importCall ImportPrim.RGB (-1073741824), Event.encodeCall,
         Event.pictureFree] ∧
      (-1073741824 : Int) ≠ 3 * 1073741824 := by decide

/-- C8 amended: every import call in an `Encoder::encode` trace uses the
primitive matching the post-substitution layout (`Other` normalized to
RGBA), and its stride is the 32-bit two's-complement reduction of
width x 3 (RGB/BGR) or width x 4 (RGBA/BGRA), which equals the exact
product channels x width whenever that product is below 2^31. -/
theorem c8_import_call_shape (c : Codec) (e : Encoder) (p : ImportPrim)
    (st : Int)
    (hmem : Event.importCall p st ∈ (Encoder.encode c e).2) :
    p = e.effPrim ∧ st = strideOf e.effPrim (u32ToI32 e.width) ∧
      (channelsOf e.effPrim * (e.width : Int) < 2147483648 →
        st = channelsOf e.effPrim * (e.width : Int)) := by
  rw [encoder_encode_char] at hmem
  split at hmem
  · split at hmem
    · split at hmem
      · split at hmem
        · simp at hmem
          obtain ⟨hp1, hst⟩ := hmem
          exact ⟨hp1, hst, fun hlt => hst.trans (strideOf_exact e.effPrim e.width hlt)⟩
        · simp at hmem
          obtain ⟨hp1, hst⟩ := hmem
          exact ⟨hp1, hst, fun hlt => hst.trans (strideOf_exact e.effPrim e.width hlt)⟩
      · simp at hmem
        obtain ⟨hp1, hst⟩ := hmem
        exact ⟨hp1, hst, fun hlt => hst.trans (strideOf_exact e.effPrim e.width hlt)⟩
    · simp at hmem
  · simp at hmem

/-- C8 witness: the import call of a concrete 1x1 RGB run, whose recorded
stride is 3 = 3 x 1, has the shape established by `c8_import_call_shape`. -/
theorem c8_witness :
    ImportPrim.RGB = (Encoder.from_rgb cfg50 [0, 0, 0] 1 1).effPrim ∧
      (3 : Int) = strideOf (Encoder.from_rgb cfg50 [0, 0, 0] 1 1).effPrim
        (u32ToI32 (Encoder.from_rgb cfg50 [0, 0, 0] 1 1).width) ∧
      (channelsOf (Encoder.from_rgb cfg50 [0, 0, 0] 1 1).effPrim *
            ((Encoder.from_rgb cfg50 [0, 0, 0] 1 1).width : Int) < 2147483648 →
        (3 : Int) = channelsOf (Encoder.from_rgb cfg50 [0, 0, 0] 1 1).effPrim *
          ((Encoder.from_rgb cfg50 [0, 0, 0] 1 1).width : Int)) :=
  c8_import_call_shape (testCodec true true true true 0)
    (Encoder.from_rgb cfg50 [0, 0, 0] 1 1) ImportPrim.RGB 3 (by decide)

/-- C2: the orchestrator performs no buffer-size validation at all: with a
codec oracle whose import primitive accepts, a 1-byte buffer encoded as a
2x2 RGBA image (needing 2 x 2 x 4 = 16 bytes) sails through to a successful
result instead of `ImportError`.  The wrapper forwards the raw buffer and
the stride to the foreign import primitive unchecked, so nothing in this
repository enforces the claimed `ImportError`-on-short-buffer guarantee,
and with the real libwebp primitives (which read height x stride bytes)
the short buffer is read out of bounds. -/
theorem c2_no_size_check :
    (Encoder.encode (testCodec true true true true 0)
          (Encoder.from_rgba cfg50 [0] 2 2)).1 = EncodeResult.ok (some [7, 7]) 2 ∧
      ([0] : List Nat).length < 2 * 2 * 4 := by decide

/-- C7 counterexample: the fresh picture descriptor is not zero/null in
every field: its `use_argb` field is 1. -/
theorem c7_counterexample :
    empty_webp_picture.use_argb = 1 ∧ empty_webp_picture ≠ zeroWebPPicture := by
  decide

/-- C7 amended: the picture descriptor allocated at the start of each
encode call is zero/null in every field except `use_argb`, which is set to
1, and the output-sink descriptor allocated alongside it is empty: null
memory pointer and zero size. -/
theorem c7_initial_descriptors :
    empty_webp_picture = { zeroWebPPicture with use_argb := 1 } ∧
      initialWriter.mem = none ∧ initialWriter.size = 0 ∧
      initialWriter.max_size = 0 := by decide
